import Mathlib

/-!
Shallow embedding of the debt-ledger core of the `socongno` application.

The embedded modules and the source files they come from:
* `models/transaction.py` — `TransactionType`, `Transaction`;
* `models/customer.py` — `Customer`;
* `core/database.py` — the SQLite store (two tables plus the
  `ON DELETE CASCADE` foreign key) is modelled as the `DB` state record;
* `repositories/customer_repo.py` — `CustomerRepository.*`;
* `repositories/transaction_repo.py` — `TransactionRepository.*`;
* `services/debt_service.py` — `DebtService.*`, with Python `ValueError`
  exceptions modelled by the `DebtError` type carried in `Except`;
* `controllers/customer_controller.py` — `CustomerController.*`.

Modelling conventions: SQL `REAL` amounts are embedded as `Int` (the claims
are about ledger arithmetic, not rounding); `datetime.now().isoformat()`
timestamps are embedded as a `Nat` clock carried in `DB` and bumped on every
insert, so `ORDER BY created_at DESC` is descending order on that `Nat`;
auto-increment row ids are the `nextCustomerId` / `nextTransactionId`
counters.  A raised exception leaves the store untouched, so the stateful
service operations return `Except ... × DB` where the error branch carries
the unchanged `DB`.
-/

namespace Socongno

/-- `TransactionType` from `models/transaction.py`: `CHO_VAY` (loan) and
`THU_NO` (payment). -/
inductive TransactionType where
  | CHO_VAY
  | THU_NO
deriving DecidableEq, Repr

/-- The `Transaction` dataclass of `models/transaction.py`. -/
structure Transaction where
  customer_id : Nat
  amount : Int
  transaction_type : TransactionType
  note : String := ""
  id : Option Nat := none
  created_at : Nat := 0
deriving DecidableEq, Repr

/-- The `Customer` dataclass of `models/customer.py`. -/
structure Customer where
  name : String
  phone : String := ""
  address : String := ""
  id : Option Nat := none
  created_at : Nat := 0
deriving DecidableEq, Repr

/-- The SQLite store of `core/database.py`: the `customers` and
`transactions` tables, the auto-increment counters, and the clock that
stamps `created_at`. -/
structure DB where
  customers : List Customer
  transactions : List Transaction
  nextCustomerId : Nat := 1
  nextTransactionId : Nat := 1
  clock : Nat := 0
deriving DecidableEq, Repr

/-- The empty store, as produced by `Database.init_schema` on a fresh file. -/
def DB.empty : DB := { customers := [], transactions := [] }

namespace CustomerRepository

/-- `CustomerRepository.create`: inserts the row, assigns
`cursor.lastrowid` back onto the object and returns it.  No validation. -/
def create (db : DB) (c : Customer) : Customer × DB :=
  let c' := { c with id := some db.nextCustomerId }
  (c', { db with customers := db.customers ++ [c'],
                 nextCustomerId := db.nextCustomerId + 1,
                 clock := db.clock + 1 })

/-- Python `row['phone'] or ''` / `row['address'] or ''`: the empty string is
falsy, so on strings this is the identity. -/
def orEmpty (s : String) : String :=
  if s = "" then "" else s

/-- `CustomerRepository.get_by_id`: `SELECT * FROM customers WHERE id = ?`,
returning the customer or `None`. -/
def get_by_id (db : DB) (customer_id : Nat) : Option Customer :=
  (db.customers.find? (fun r => decide (r.id = some customer_id))).map
    (fun r => { r with phone := orEmpty r.phone, address := orEmpty r.address })

/-- `CustomerRepository.update`: `UPDATE customers SET name, phone, address
WHERE id = ?`; returns `cursor.rowcount > 0`.  A `None` id binds SQL `NULL`,
which matches no row. -/
def update (db : DB) (c : Customer) : Bool × DB :=
  match c.id with
  | none => (false, db)
  | some i =>
      (db.customers.any (fun r => decide (r.id = some i)),
       { db with customers := db.customers.map (fun r =>
           if r.id = some i then
             { r with name := c.name, phone := c.phone, address := c.address }
           else r) })

/-- `CustomerRepository.delete`: `DELETE FROM customers WHERE id = ?` with
`PRAGMA foreign_keys = ON`, so deleting a customer row cascades to every
transaction row referencing it (`ON DELETE CASCADE` in `init_schema`);
returns `cursor.rowcount > 0`. -/
def delete (db : DB) (customer_id : Nat) : Bool × DB :=
  if db.customers.any (fun r => decide (r.id = some customer_id)) then
    (true,
     { db with
         customers := db.customers.filter (fun r => decide (r.id ≠ some customer_id)),
         transactions := db.transactions.filter (fun t => decide (t.customer_id ≠ customer_id)) })
  else
    (false, db)

end CustomerRepository

namespace TransactionRepository

/-- `TransactionRepository.create`: inserts the row and assigns
`cursor.lastrowid` back onto the object. -/
def create (db : DB) (t : Transaction) : Transaction × DB :=
  let t' := { t with id := some db.nextTransactionId }
  (t', { db with transactions := db.transactions ++ [t'],
                 nextTransactionId := db.nextTransactionId + 1,
                 clock := db.clock + 1 })

/-- `TransactionRepository.get_by_customer_id`: `SELECT * FROM transactions
WHERE customer_id = ? ORDER BY created_at DESC`. -/
def get_by_customer_id (db : DB) (customer_id : Nat) : List Transaction :=
  (db.transactions.filter (fun t => decide (t.customer_id = customer_id))).mergeSort
    (fun a b => decide (b.created_at ≤ a.created_at))

/-- `TransactionRepository.get_customer_balance`: the two
`COALESCE(SUM(amount), 0)` aggregates (one per transaction type) and their
difference; an empty group sums to `0`. -/
def get_customer_balance (db : DB) (customer_id : Nat) : Int :=
  let cho_vay := ((db.transactions.filter (fun t =>
      decide (t.customer_id = customer_id ∧ t.transaction_type = TransactionType.CHO_VAY))).map
        (fun t => t.amount)).sum
  let thu_no := ((db.transactions.filter (fun t =>
      decide (t.customer_id = customer_id ∧ t.transaction_type = TransactionType.THU_NO))).map
        (fun t => t.amount)).sum
  cho_vay - thu_no

end TransactionRepository

/-- The distinct `ValueError`s raised by `services/debt_service.py`,
identified by their message. -/
inductive DebtError where
  | customerNotFound (customer_id : Nat)
  | invalidLoanAmount
  | invalidPaymentAmount
deriving DecidableEq, Repr

/-- `str(e)` for each `ValueError` of the service layer. -/
def DebtError.message : DebtError → String
  | .customerNotFound customer_id =>
      "Không tìm thấy khách hàng với ID: " ++ toString customer_id
  | .invalidLoanAmount => "Số tiền cho vay phải lớn hơn 0"
  | .invalidPaymentAmount => "Số tiền thu nợ phải lớn hơn 0"

namespace DebtService

/-- `DebtService.calculate_debt`: raises not-found when `get_by_id` returns
`None`, otherwise delegates to the balance query (read-only). -/
def calculate_debt (db : DB) (customer_id : Nat) : Except DebtError Int :=
  match CustomerRepository.get_by_id db customer_id with
  | none => .error (.customerNotFound customer_id)
  | some _ => .ok (TransactionRepository.get_customer_balance db customer_id)

/-- `DebtService.add_loan`: existence check, then `amount <= 0` check, then
insert a `CHO_VAY` transaction stamped `datetime.now()`.  The error branch
returns the store unchanged (the exception fires before the insert). -/
def add_loan (db : DB) (customer_id : Nat) (amount : Int) (note : String := "") :
    Except DebtError Transaction × DB :=
  match CustomerRepository.get_by_id db customer_id with
  | none => (.error (.customerNotFound customer_id), db)
  | some _ =>
      if amount ≤ 0 then (.error .invalidLoanAmount, db)
      else
        let t : Transaction :=
          { customer_id := customer_id, amount := amount,
            transaction_type := .CHO_VAY, note := note, id := none,
            created_at := db.clock }
        let (t', db') := TransactionRepository.create db t
        (.ok t', db')

/-- `DebtService.add_payment`: same contract as `add_loan` with type
`THU_NO`; no check of the amount against the current balance. -/
def add_payment (db : DB) (customer_id : Nat) (amount : Int) (note : String := "") :
    Except DebtError Transaction × DB :=
  match CustomerRepository.get_by_id db customer_id with
  | none => (.error (.customerNotFound customer_id), db)
  | some _ =>
      if amount ≤ 0 then (.error .invalidPaymentAmount, db)
      else
        let t : Transaction :=
          { customer_id := customer_id, amount := amount,
            transaction_type := .THU_NO, note := note, id := none,
            created_at := db.clock }
        let (t', db') := TransactionRepository.create db t
        (.ok t', db')

/-- `DebtService.get_customer_history`: existence check, then the
most-recent-first transaction list (read-only). -/
def get_customer_history (db : DB) (customer_id : Nat) :
    Except DebtError (List Transaction) :=
  match CustomerRepository.get_by_id db customer_id with
  | none => .error (.customerNotFound customer_id)
  | some _ => .ok (TransactionRepository.get_by_customer_id db customer_id)

end DebtService

/-- Python `str.strip()`: drops leading and trailing whitespace.  (Defined
over the character list so concrete instances evaluate by kernel
reduction.) -/
def strip (s : String) : String :=
  String.mk (((s.data.dropWhile Char.isWhitespace).reverse.dropWhile
    Char.isWhitespace).reverse)

namespace CustomerController

/-- `CustomerController.create_customer`: rejects a blank name itself, then
builds the `Customer` from the stripped fields and calls the repository
directly. -/
def create_customer (db : DB) (name phone address : String) :
    (Bool × String × Option Customer) × DB :=
  if strip name = "" then
    ((false, "Tên khách hàng không được để trống", none), db)
  else
    let c : Customer :=
      { name := strip name, phone := strip phone, address := strip address,
        id := none, created_at := db.clock }
    let (r, db') := CustomerRepository.create db c
    ((true, "Tạo khách hàng thành công", some r), db')

/-- `CustomerController.add_loan`: adapts the service outcome into the
`(success, message, None)` triple, with `str(e)` as the failure message. -/
def add_loan (db : DB) (customer_id : Nat) (amount : Int) (note : String) :
    (Bool × String) × DB :=
  match DebtService.add_loan db customer_id amount note with
  | (.ok _, db') => ((true, "Đã thêm khoản cho vay thành công"), db')
  | (.error e, db') => ((false, e.message), db')

/-- `CustomerController.add_payment`: same adaptation for payments. -/
def add_payment (db : DB) (customer_id : Nat) (amount : Int) (note : String) :
    (Bool × String) × DB :=
  match DebtService.add_payment db customer_id amount note with
  | (.ok _, db') => ((true, "Đã thu nợ thành công"), db')
  | (.error e, db') => ((false, e.message), db')

/-- `CustomerController.get_customer_debt`: adapts `calculate_debt`,
returning `0.0` as payload on failure. -/
def get_customer_debt (db : DB) (customer_id : Nat) : Bool × String × Int :=
  match DebtService.calculate_debt db customer_id with
  | .ok d => (true, "", d)
  | .error e => (false, e.message, 0)

end CustomerController

/-! ### Shared reduction lemmas for the service operations -/

/-- `add_loan` on a missing customer raises not-found before touching the
store. -/
theorem add_loan_eq_of_no_customer (db : DB) (customer_id : Nat) (amount : Int)
    (note : String)
    (hg : CustomerRepository.get_by_id db customer_id = none) :
    DebtService.add_loan db customer_id amount note =
      (.error (.customerNotFound customer_id), db) := by
  simp [DebtService.add_loan, hg]

/-- `add_payment` on a missing customer raises not-found before touching the
store. -/
theorem add_payment_eq_of_no_customer (db : DB) (customer_id : Nat) (amount : Int)
    (note : String)
    (hg : CustomerRepository.get_by_id db customer_id = none) :
    DebtService.add_payment db customer_id amount note =
      (.error (.customerNotFound customer_id), db) := by
  simp [DebtService.add_payment, hg]

/-- `add_loan` on an existing customer with a non-positive amount raises the
loan-amount error before touching the store. -/
theorem add_loan_eq_of_nonpos (db : DB) (customer_id : Nat) (amount : Int)
    (note : String) (c : Customer)
    (hg : CustomerRepository.get_by_id db customer_id = some c)
    (hle : amount ≤ 0) :
    DebtService.add_loan db customer_id amount note =
      (.error .invalidLoanAmount, db) := by
  simp [DebtService.add_loan, hg, hle]

/-- `add_payment` on an existing customer with a non-positive amount raises
the payment-amount error before touching the store. -/
theorem add_payment_eq_of_nonpos (db : DB) (customer_id : Nat) (amount : Int)
    (note : String) (c : Customer)
    (hg : CustomerRepository.get_by_id db customer_id = some c)
    (hle : amount ≤ 0) :
    DebtService.add_payment db customer_id amount note =
      (.error .invalidPaymentAmount, db) := by
  simp [DebtService.add_payment, hg, hle]

/-- The `CHO_VAY` row appended by a successful `add_loan`. -/
def loanRow (db : DB) (customer_id : Nat) (amount : Int) (note : String) :
    Transaction :=
  { customer_id := customer_id, amount := amount,
    transaction_type := .CHO_VAY, note := note,
    id := some db.nextTransactionId, created_at := db.clock }

/-- The `THU_NO` row appended by a successful `add_payment`. -/
def paymentRow (db : DB) (customer_id : Nat) (amount : Int) (note : String) :
    Transaction :=
  { customer_id := customer_id, amount := amount,
    transaction_type := .THU_NO, note := note,
    id := some db.nextTransactionId, created_at := db.clock }

/-- Successful `add_loan`: the new row is appended to the transaction log and
returned. -/
theorem add_loan_eq_of_pos (db : DB) (customer_id : Nat) (amount : Int)
    (note : String) (c : Customer)
    (hg : CustomerRepository.get_by_id db customer_id = some c)
    (hpos : 0 < amount) :
    DebtService.add_loan db customer_id amount note =
      (.ok (loanRow db customer_id amount note),
       { db with
           transactions := db.transactions ++ [loanRow db customer_id amount note],
           nextTransactionId := db.nextTransactionId + 1,
           clock := db.clock + 1 }) := by
  simp [DebtService.add_loan, hg, TransactionRepository.create, loanRow,
    not_le.mpr hpos]

/-- Successful `add_payment`: the new row is appended to the transaction log
and returned. -/
theorem add_payment_eq_of_pos (db : DB) (customer_id : Nat) (amount : Int)
    (note : String) (c : Customer)
    (hg : CustomerRepository.get_by_id db customer_id = some c)
    (hpos : 0 < amount) :
    DebtService.add_payment db customer_id amount note =
      (.ok (paymentRow db customer_id amount note),
       { db with
           transactions := db.transactions ++ [paymentRow db customer_id amount note],
           nextTransactionId := db.nextTransactionId + 1,
           clock := db.clock + 1 }) := by
  simp [DebtService.add_payment, hg, TransactionRepository.create, paymentRow,
    not_le.mpr hpos]

/-! ### Concrete stores used by the witnesses -/

/-- A store holding the single customer `"An"` with id 1 (spec scenario 1). -/
def dbAn : DB := (CustomerRepository.create DB.empty { name := "An" }).2

/-- The store after `add_loan(1, 500000)` and `add_payment(1, 200000)` on
`dbAn`; customer 1's balance is `300000` (spec scenarios 1–2). -/
def dbScenario : DB :=
  (DebtService.add_payment
    (DebtService.add_loan dbAn 1 500000 "xe máy").2 1 200000 "trả góp").2

/-! ### Balance under appended rows, and frame lemmas -/

/-- Appending a loan row for `customer_id` raises that customer's balance by
its amount. -/
theorem balance_append_loan (db : DB) (customer_id : Nat) (amount : Int)
    (note : String) :
    TransactionRepository.get_customer_balance
      { db with
          transactions := db.transactions ++ [loanRow db customer_id amount note],
          nextTransactionId := db.nextTransactionId + 1,
          clock := db.clock + 1 } customer_id
    = TransactionRepository.get_customer_balance db customer_id + amount := by
  simp only [TransactionRepository.get_customer_balance, loanRow,
    List.filter_append, List.map_append, List.sum_append]
  simp
  omega

/-- Appending a payment row for `customer_id` lowers that customer's balance
by its amount. -/
theorem balance_append_payment (db : DB) (customer_id : Nat) (amount : Int)
    (note : String) :
    TransactionRepository.get_customer_balance
      { db with
          transactions := db.transactions ++ [paymentRow db customer_id amount note],
          nextTransactionId := db.nextTransactionId + 1,
          clock := db.clock + 1 } customer_id
    = TransactionRepository.get_customer_balance db customer_id - amount := by
  simp only [TransactionRepository.get_customer_balance, paymentRow,
    List.filter_append, List.map_append, List.sum_append]
  simp
  omega

/-- `get_by_id` reads only the customers table. -/
theorem get_by_id_eq_of_customers {db db' : DB}
    (h : db'.customers = db.customers) (customer_id : Nat) :
    CustomerRepository.get_by_id db' customer_id =
      CustomerRepository.get_by_id db customer_id := by
  simp [CustomerRepository.get_by_id, h]

/-- `add_loan` never touches the customers table. -/
theorem add_loan_customers (db : DB) (customer_id : Nat) (amount : Int)
    (note : String) :
    ((DebtService.add_loan db customer_id amount note).2).customers =
      db.customers := by
  cases hg : CustomerRepository.get_by_id db customer_id with
  | none => simp [DebtService.add_loan, hg]
  | some c =>
      by_cases hle : amount ≤ 0
      · simp [DebtService.add_loan, hg, hle]
      · simp [DebtService.add_loan, hg, hle, TransactionRepository.create]

/-- `add_payment` never touches the customers table. -/
theorem add_payment_customers (db : DB) (customer_id : Nat) (amount : Int)
    (note : String) :
    ((DebtService.add_payment db customer_id amount note).2).customers =
      db.customers := by
  cases hg : CustomerRepository.get_by_id db customer_id with
  | none => simp [DebtService.add_payment, hg]
  | some c =>
      by_cases hle : amount ≤ 0
      · simp [DebtService.add_payment, hg, hle]
      · simp [DebtService.add_payment, hg, hle, TransactionRepository.create]

/-! ### Sequences of service calls (for the order-independence claim) -/

/-- Runs a sequence of `add_loan` / `add_payment` calls for one customer,
keeping the store of each step (a raised `ValueError` leaves it unchanged). -/
def runOps (db : DB) (customer_id : Nat) :
    List (TransactionType × Int) → DB
  | [] => db
  | (ty, amount) :: rest =>
      match ty with
      | .CHO_VAY =>
          runOps (DebtService.add_loan db customer_id amount "").2 customer_id rest
      | .THU_NO =>
          runOps (DebtService.add_payment db customer_id amount "").2 customer_id rest

/-- The sum of the loan amounts of a call sequence. -/
def loansSum (ops : List (TransactionType × Int)) : Int :=
  ((ops.filter (fun p => decide (p.1 = TransactionType.CHO_VAY))).map
    (fun p => p.2)).sum

/-- The sum of the payment amounts of a call sequence. -/
def paymentsSum (ops : List (TransactionType × Int)) : Int :=
  ((ops.filter (fun p => decide (p.1 = TransactionType.THU_NO))).map
    (fun p => p.2)).sum

theorem loansSum_cons_loan (a : Int) (rest : List (TransactionType × Int)) :
    loansSum ((TransactionType.CHO_VAY, a) :: rest) = a + loansSum rest := by
  simp [loansSum]

theorem loansSum_cons_payment (a : Int) (rest : List (TransactionType × Int)) :
    loansSum ((TransactionType.THU_NO, a) :: rest) = loansSum rest := by
  simp [loansSum]

theorem paymentsSum_cons_loan (a : Int) (rest : List (TransactionType × Int)) :
    paymentsSum ((TransactionType.CHO_VAY, a) :: rest) = paymentsSum rest := by
  simp [paymentsSum]

theorem paymentsSum_cons_payment (a : Int) (rest : List (TransactionType × Int)) :
    paymentsSum ((TransactionType.THU_NO, a) :: rest) = a + paymentsSum rest := by
  simp [paymentsSum]

/-- `loansSum` only depends on the multiset of calls. -/
theorem loansSum_perm {ops ops' : List (TransactionType × Int)}
    (h : ops.Perm ops') : loansSum ops = loansSum ops' :=
  List.Perm.sum_eq ((h.filter _).map _)

/-- `paymentsSum` only depends on the multiset of calls. -/
theorem paymentsSum_perm {ops ops' : List (TransactionType × Int)}
    (h : ops.Perm ops') : paymentsSum ops = paymentsSum ops' :=
  List.Perm.sum_eq ((h.filter _).map _)

/-- `runOps` never touches the customers table. -/
theorem runOps_customers (customer_id : Nat) :
    ∀ (ops : List (TransactionType × Int)) (db : DB),
      (runOps db customer_id ops).customers = db.customers := by
  intro ops
  induction ops with
  | nil => intro db; rfl
  | cons op rest ih =>
      intro db
      obtain ⟨ty, amount⟩ := op
      cases ty with
      | CHO_VAY =>
          rw [runOps, ih, add_loan_customers]
      | THU_NO =>
          rw [runOps, ih, add_payment_customers]

/-- A customer with no transaction rows has balance exactly `0` (both
aggregate sums are over empty groups). -/
theorem balance_zero_of_no_rows (db : DB) (customer_id : Nat)
    (h0 : db.transactions.filter (fun t => decide (t.customer_id = customer_id)) = []) :
    TransactionRepository.get_customer_balance db customer_id = 0 := by
  have hall : ∀ t ∈ db.transactions, t.customer_id ≠ customer_id := by
    intro t ht hc
    have hmem : t ∈ db.transactions.filter
        (fun t => decide (t.customer_id = customer_id)) :=
      List.mem_filter.mpr ⟨ht, by simp [hc]⟩
    simp [h0] at hmem
  have h1 : db.transactions.filter (fun t =>
      decide (t.customer_id = customer_id ∧
        t.transaction_type = TransactionType.CHO_VAY)) = [] := by
    refine List.filter_eq_nil_iff.mpr fun t ht => ?_
    simp [hall t ht]
  have h2 : db.transactions.filter (fun t =>
      decide (t.customer_id = customer_id ∧
        t.transaction_type = TransactionType.THU_NO)) = [] := by
    refine List.filter_eq_nil_iff.mpr fun t ht => ?_
    simp [hall t ht]
  simp only [TransactionRepository.get_customer_balance]
  rw [h1, h2]
  simp

/-- Running a sequence of positive-amount calls shifts the balance by the
net amount of the sequence. -/
theorem runOps_balance (customer_id : Nat) (c : Customer) :
    ∀ (ops : List (TransactionType × Int)) (db : DB),
      CustomerRepository.get_by_id db customer_id = some c →
      (∀ p ∈ ops, 0 < p.2) →
      TransactionRepository.get_customer_balance (runOps db customer_id ops)
          customer_id
        = TransactionRepository.get_customer_balance db customer_id
            + (loansSum ops - paymentsSum ops) := by
  intro ops
  induction ops with
  | nil => intro db hg hpos; simp [runOps, loansSum, paymentsSum]
  | cons op rest ih =>
      intro db hg hpos
      obtain ⟨ty, amount⟩ := op
      have hpos0 : 0 < amount := hpos (ty, amount) (List.mem_cons_self _ _)
      have hposr : ∀ p ∈ rest, 0 < p.2 := fun p hp =>
        hpos p (List.mem_cons_of_mem _ hp)
      cases ty with
      | CHO_VAY =>
          rw [runOps]
          have hg' : CustomerRepository.get_by_id
              (DebtService.add_loan db customer_id amount "").2 customer_id
              = some c :=
            (get_by_id_eq_of_customers (add_loan_customers db customer_id amount "")
              customer_id).trans hg
          rw [ih _ hg', add_loan_eq_of_pos db customer_id amount "" c hg hpos0,
            balance_append_loan, loansSum_cons_loan, paymentsSum_cons_loan]
          · omega
          · exact hposr
      | THU_NO =>
          rw [runOps]
          have hg' : CustomerRepository.get_by_id
              (DebtService.add_payment db customer_id amount "").2 customer_id
              = some c :=
            (get_by_id_eq_of_customers (add_payment_customers db customer_id amount "")
              customer_id).trans hg
          rw [ih _ hg', add_payment_eq_of_pos db customer_id amount "" c hg hpos0,
            balance_append_payment, loansSum_cons_payment, paymentsSum_cons_payment]
          · omega
          · exact hposr

/-! ### Claim theorems -/

/-- C1: for a customer starting with no transaction rows, a sequence of
loans and payments leaves `calculate_debt` at the sum of the loan amounts
minus the sum of the payment amounts, the same for any permutation of the
sequence; with no transactions the balance is exactly `.ok 0` — a value,
not an error. -/
theorem C1_balance_is_order_independent_net_sum (db : DB) (customer_id : Nat)
    (c : Customer)
    (hg : CustomerRepository.get_by_id db customer_id = some c)
    (h0 : db.transactions.filter (fun t => decide (t.customer_id = customer_id)) = [])
    (ops ops' : List (TransactionType × Int))
    (hpos : ∀ p ∈ ops, 0 < p.2) (hperm : ops.Perm ops') :
    DebtService.calculate_debt db customer_id = .ok 0
  ∧ DebtService.calculate_debt (runOps db customer_id ops) customer_id
      = .ok (loansSum ops - paymentsSum ops)
  ∧ DebtService.calculate_debt (runOps db customer_id ops') customer_id
      = .ok (loansSum ops - paymentsSum ops) := by
  have hbal0 := balance_zero_of_no_rows db customer_id h0
  have hg1 : CustomerRepository.get_by_id (runOps db customer_id ops)
      customer_id = some c :=
    (get_by_id_eq_of_customers (runOps_customers customer_id ops db) _).trans hg
  have hg2 : CustomerRepository.get_by_id (runOps db customer_id ops')
      customer_id = some c :=
    (get_by_id_eq_of_customers (runOps_customers customer_id ops' db) _).trans hg
  have hpos' : ∀ p ∈ ops', 0 < p.2 := fun p hp => hpos p (hperm.mem_iff.mpr hp)
  refine ⟨?_, ?_, ?_⟩
  · simp [DebtService.calculate_debt, hg, hbal0]
  · simp [DebtService.calculate_debt, hg1,
      runOps_balance customer_id c ops db hg hpos, hbal0]
  · simp [DebtService.calculate_debt, hg2,
      runOps_balance customer_id c ops' db hg hpos', hbal0,
      loansSum_perm hperm, paymentsSum_perm hperm]

/-- Witness for C1 at spec scenarios 1–2: starting from the store holding
only customer 1, the loan of `500000` and the payment of `200000` yield
balance `300000` in either order, and the fresh customer's balance is
`.ok 0`. -/
theorem C1_balance_is_order_independent_net_sum_witness :
    DebtService.calculate_debt dbAn 1 = .ok 0
  ∧ DebtService.calculate_debt
      (runOps dbAn 1 [(.CHO_VAY, 500000), (.THU_NO, 200000)]) 1 = .ok 300000
  ∧ DebtService.calculate_debt
      (runOps dbAn 1 [(.THU_NO, 200000), (.CHO_VAY, 500000)]) 1 = .ok 300000 := by
  have h := C1_balance_is_order_independent_net_sum dbAn 1
    { name := "An", phone := "", address := "", id := some 1, created_at := 0 }
    (by decide) rfl
    [(.CHO_VAY, 500000), (.THU_NO, 200000)]
    [(.THU_NO, 200000), (.CHO_VAY, 500000)]
    (by decide) (List.Perm.swap _ _ _)
  have hnet : loansSum [(.CHO_VAY, 500000), (.THU_NO, 200000)]
      - paymentsSum [(.CHO_VAY, 500000), (.THU_NO, 200000)] = (300000 : Int) := by
    decide
  exact ⟨h.1, hnet ▸ h.2.1, hnet ▸ h.2.2⟩

/-- C2: every `add_loan` / `add_payment` call with `amount ≤ 0` fails with a
`ValueError` and returns the store unchanged, so no transaction row is
inserted. -/
theorem C2_nonpositive_amount_always_fails (db : DB) (customer_id : Nat)
    (amount : Int) (note : String) (h : amount ≤ 0) :
    (∃ e, DebtService.add_loan db customer_id amount note = (.error e, db))
  ∧ (∃ e, DebtService.add_payment db customer_id amount note = (.error e, db)) := by
  cases hg : CustomerRepository.get_by_id db customer_id with
  | none =>
      exact ⟨⟨_, add_loan_eq_of_no_customer db customer_id amount note hg⟩,
             ⟨_, add_payment_eq_of_no_customer db customer_id amount note hg⟩⟩
  | some c =>
      exact ⟨⟨_, add_loan_eq_of_nonpos db customer_id amount note c hg h⟩,
             ⟨_, add_payment_eq_of_nonpos db customer_id amount note c hg h⟩⟩

/-- Witness for C2 at spec scenario 5: `add_loan(1, -50)` on the store
holding customer 1 fails and leaves the store unchanged. -/
theorem C2_nonpositive_amount_always_fails_witness :
    (-50 : Int) ≤ 0
  ∧ (∃ e, DebtService.add_loan dbAn 1 (-50) "" = (.error e, dbAn))
  ∧ (∃ e, DebtService.add_payment dbAn 1 (-50) "" = (.error e, dbAn)) :=
  ⟨by decide, C2_nonpositive_amount_always_fails dbAn 1 (-50) "" (by decide)⟩

/-- C3: a missing customer id makes `add_loan` / `add_payment` fail with the
not-found error and leave the store unchanged; an existing customer and a
positive amount make them append and return a transaction of the matching
type. -/
theorem C3_not_found_fails_and_valid_input_creates (db : DB)
    (customer_id : Nat) (amount : Int) (note : String) :
    (CustomerRepository.get_by_id db customer_id = none →
       DebtService.add_loan db customer_id amount note =
         (.error (.customerNotFound customer_id), db)
     ∧ DebtService.add_payment db customer_id amount note =
         (.error (.customerNotFound customer_id), db))
  ∧ (∀ c, CustomerRepository.get_by_id db customer_id = some c → 0 < amount →
       (∃ t db', DebtService.add_loan db customer_id amount note = (.ok t, db')
          ∧ t.customer_id = customer_id ∧ t.amount = amount
          ∧ t.transaction_type = .CHO_VAY
          ∧ db'.transactions = db.transactions ++ [t])
     ∧ (∃ t db', DebtService.add_payment db customer_id amount note = (.ok t, db')
          ∧ t.customer_id = customer_id ∧ t.amount = amount
          ∧ t.transaction_type = .THU_NO
          ∧ db'.transactions = db.transactions ++ [t])) := by
  constructor
  · intro hg
    exact ⟨add_loan_eq_of_no_customer db customer_id amount note hg,
           add_payment_eq_of_no_customer db customer_id amount note hg⟩
  · intro c hg hpos
    exact ⟨⟨_, _, add_loan_eq_of_pos db customer_id amount note c hg hpos,
             rfl, rfl, rfl, rfl⟩,
           ⟨_, _, add_payment_eq_of_pos db customer_id amount note c hg hpos,
             rfl, rfl, rfl, rfl⟩⟩

/-- Witness for C3: spec scenario 4 (`add_loan(999, 100)` on the empty store
fails not-found) and a successful `add_loan(1, 100)` on the store holding
customer 1. -/
theorem C3_not_found_fails_and_valid_input_creates_witness :
    DebtService.add_loan DB.empty 999 100 "" =
      (.error (.customerNotFound 999), DB.empty)
  ∧ ∃ t db', DebtService.add_loan dbAn 1 100 "" = (.ok t, db')
      ∧ t.transaction_type = .CHO_VAY
      ∧ db'.transactions = dbAn.transactions ++ [t] := by
  have h1 := (C3_not_found_fails_and_valid_input_creates DB.empty 999 100 "").1 rfl
  have h2 := (C3_not_found_fails_and_valid_input_creates dbAn 1 100 "").2
    { name := "An", phone := "", address := "", id := some 1, created_at := 0 }
    (by decide) (by decide)
  obtain ⟨t, db', ht, _, _, hty, happ⟩ := h2.1
  exact ⟨h1.1, t, db', ht, hty, happ⟩

/-- C10: the existence check precedes the positivity check, so a call with a
missing customer and a non-positive amount fails with the not-found error
and never with an invalid-amount error. -/
theorem C10_existence_checked_before_amount (db : DB) (customer_id : Nat)
    (amount : Int) (note : String)
    (hg : CustomerRepository.get_by_id db customer_id = none)
    (_hle : amount ≤ 0) :
    DebtService.add_loan db customer_id amount note =
      (.error (.customerNotFound customer_id), db)
  ∧ DebtService.add_payment db customer_id amount note =
      (.error (.customerNotFound customer_id), db)
  ∧ (DebtService.add_loan db customer_id amount note).1 ≠
      .error .invalidLoanAmount
  ∧ (DebtService.add_payment db customer_id amount note).1 ≠
      .error .invalidPaymentAmount := by
  have h1 := add_loan_eq_of_no_customer db customer_id amount note hg
  have h2 := add_payment_eq_of_no_customer db customer_id amount note hg
  refine ⟨h1, h2, ?_, ?_⟩ <;> simp [h1, h2]

/-- Witness for C10: `add_loan(999, -50)` on the empty store fails with
not-found, not with the invalid-amount error. -/
theorem C10_existence_checked_before_amount_witness :
    DebtService.add_loan DB.empty 999 (-50) "" =
      (.error (.customerNotFound 999), DB.empty)
  ∧ (DebtService.add_loan DB.empty 999 (-50) "").1 ≠
      .error .invalidLoanAmount :=
  have h := C10_existence_checked_before_amount DB.empty 999 (-50) "" rfl (by decide)
  ⟨h.1, h.2.2.1⟩

/-- C4: `add_payment` never inspects the balance: for every existing
customer and positive amount it succeeds, and the new balance is the old
balance minus the amount — negative when the payment exceeds the debt. -/
theorem C4_overpayment_permitted (db : DB) (customer_id : Nat) (amount : Int)
    (note : String) (c : Customer)
    (hg : CustomerRepository.get_by_id db customer_id = some c)
    (hpos : 0 < amount) :
    ∃ t db', DebtService.add_payment db customer_id amount note = (.ok t, db')
      ∧ DebtService.calculate_debt db' customer_id =
          .ok (TransactionRepository.get_customer_balance db customer_id - amount) := by
  refine ⟨_, _, add_payment_eq_of_pos db customer_id amount note c hg hpos, ?_⟩
  have hcust : CustomerRepository.get_by_id
      { db with
          transactions := db.transactions ++ [paymentRow db customer_id amount note],
          nextTransactionId := db.nextTransactionId + 1,
          clock := db.clock + 1 } customer_id = some c :=
    (get_by_id_eq_of_customers rfl customer_id).trans hg
  simp [DebtService.calculate_debt, hcust, balance_append_payment]

/-- Witness for C4 at spec scenario 3: on a store where customer 1 owes
`300000`, `add_payment(1, 400000)` succeeds and the balance becomes
`-100000`. -/
theorem C4_overpayment_permitted_witness :
    ∃ t db', DebtService.add_payment dbScenario 1 400000 "" = (.ok t, db')
      ∧ DebtService.calculate_debt db' 1 = .ok (-100000) := by
  obtain ⟨t, db', h1, h2⟩ := C4_overpayment_permitted dbScenario 1 400000 ""
    { name := "An", phone := "", address := "", id := some 1, created_at := 0 }
    (by decide) (by decide)
  refine ⟨t, db', h1, ?_⟩
  rw [h2]
  have hbal : TransactionRepository.get_customer_balance dbScenario 1 = 300000 := by
    decide
  rw [hbal]
  norm_num

/-- C5: deleting an existing customer reports success, removes every
transaction row of that customer (the `ON DELETE CASCADE` foreign key), and
a subsequent `get_customer_history` on the deleted id fails not-found. -/
theorem C5_delete_cascades_and_history_not_found (db : DB) (customer_id : Nat)
    (h : ∃ r ∈ db.customers, r.id = some customer_id) :
    (CustomerRepository.delete db customer_id).1 = true
  ∧ ((CustomerRepository.delete db customer_id).2).transactions.filter
      (fun t => decide (t.customer_id = customer_id)) = []
  ∧ DebtService.get_customer_history
      (CustomerRepository.delete db customer_id).2 customer_id
      = .error (.customerNotFound customer_id) := by
  have hany : db.customers.any (fun r => decide (r.id = some customer_id)) = true := by
    obtain ⟨r, hr, hid⟩ := h
    exact List.any_eq_true.mpr ⟨r, hr, by simp [hid]⟩
  have hdel : CustomerRepository.delete db customer_id =
      (true,
       { db with
           customers := db.customers.filter
             (fun r => decide (r.id ≠ some customer_id)),
           transactions := db.transactions.filter
             (fun t => decide (t.customer_id ≠ customer_id)) }) := by
    simp [CustomerRepository.delete, hany]
  have hfilter : (db.transactions.filter
      (fun t => decide (t.customer_id ≠ customer_id))).filter
        (fun t => decide (t.customer_id = customer_id)) = [] := by
    refine List.filter_eq_nil_iff.mpr fun t ht => ?_
    have := (List.mem_filter.mp ht).2
    simp only [decide_eq_true_eq] at this
    simp [this]
  have hnone : CustomerRepository.get_by_id
      (CustomerRepository.delete db customer_id).2 customer_id = none := by
    rw [hdel]
    have hfind : List.find? (fun r => decide (r.id = some customer_id))
        (db.customers.filter (fun r => decide (r.id ≠ some customer_id))) = none := by
      refine List.find?_eq_none.mpr fun r hr => ?_
      have := (List.mem_filter.mp hr).2
      simp only [decide_eq_true_eq] at this
      simp [this]
    simp [CustomerRepository.get_by_id, hfind]
  refine ⟨by rw [hdel], by rw [hdel]; exact hfilter, ?_⟩
  simp [DebtService.get_customer_history, hnone]

/-- Witness for C5 at spec scenario 6: deleting customer 1 from the
two-transaction store empties their transaction rows and makes
`get_customer_history(1)` fail not-found. -/
theorem C5_delete_cascades_and_history_not_found_witness :
    (CustomerRepository.delete dbScenario 1).1 = true
  ∧ ((CustomerRepository.delete dbScenario 1).2).transactions.filter
      (fun t => decide (t.customer_id = 1)) = []
  ∧ DebtService.get_customer_history (CustomerRepository.delete dbScenario 1).2 1
      = .error (.customerNotFound 1) :=
  C5_delete_cascades_and_history_not_found dbScenario 1
    ⟨{ name := "An", phone := "", address := "", id := some 1, created_at := 0 },
     by decide, rfl⟩

/-- C6: both read operations check existence first: on a missing customer
they fail not-found; on an existing customer `calculate_debt` returns the
balance query's value and `get_customer_history` returns exactly the
customer's rows sorted most-recent-first (`created_at` descending). -/
theorem C6_reads_not_found_or_delegate (db : DB) (customer_id : Nat) :
    (CustomerRepository.get_by_id db customer_id = none →
        DebtService.calculate_debt db customer_id =
          .error (.customerNotFound customer_id)
      ∧ DebtService.get_customer_history db customer_id =
          .error (.customerNotFound customer_id))
  ∧ (∀ c, CustomerRepository.get_by_id db customer_id = some c →
        DebtService.calculate_debt db customer_id =
          .ok (TransactionRepository.get_customer_balance db customer_id)
      ∧ ∃ l, DebtService.get_customer_history db customer_id = .ok l
          ∧ l.Perm (db.transactions.filter
              (fun t => decide (t.customer_id = customer_id)))
          ∧ l.Pairwise (fun a b => b.created_at ≤ a.created_at)) := by
  constructor
  · intro hg
    exact ⟨by simp [DebtService.calculate_debt, hg],
           by simp [DebtService.get_customer_history, hg]⟩
  · intro c hg
    refine ⟨by simp [DebtService.calculate_debt, hg], ?_⟩
    refine ⟨TransactionRepository.get_by_customer_id db customer_id,
      by simp [DebtService.get_customer_history, hg], ?_, ?_⟩
    · exact List.mergeSort_perm _ _
    · have hs := @List.sorted_mergeSort Transaction
        (fun a b : Transaction => decide (b.created_at ≤ a.created_at))
        (fun a b c h₁ h₂ => by
          simp only [decide_eq_true_eq] at h₁ h₂ ⊢
          exact le_trans h₂ h₁)
        (fun a b => by
          simp only [Bool.or_eq_true, decide_eq_true_eq]
          exact le_total b.created_at a.created_at)
        (db.transactions.filter (fun t => decide (t.customer_id = customer_id)))
      exact hs.imp fun hab => by simpa using hab

/-- Witness for C6: on the two-transaction store, `calculate_debt(1)`
delegates to the balance (`300000`), the history is the two rows
most-recent-first, and id `999` fails not-found. -/
theorem C6_reads_not_found_or_delegate_witness :
    DebtService.calculate_debt dbScenario 999 = .error (.customerNotFound 999)
  ∧ DebtService.calculate_debt dbScenario 1 =
      .ok (TransactionRepository.get_customer_balance dbScenario 1)
  ∧ ∃ l, DebtService.get_customer_history dbScenario 1 = .ok l
      ∧ l.Pairwise (fun a b => b.created_at ≤ a.created_at) := by
  have h999 := (C6_reads_not_found_or_delegate dbScenario 999).1 rfl
  have h1 := (C6_reads_not_found_or_delegate dbScenario 1).2
    { name := "An", phone := "", address := "", id := some 1, created_at := 0 }
    (by decide)
  obtain ⟨l, hl, _, hsorted⟩ := h1.2
  exact ⟨h999.1, h1.1, l, hl, hsorted⟩

/-- Python `row['phone'] or ''` is the identity on strings. -/
theorem orEmpty_eq (s : String) : CustomerRepository.orEmpty s = s := by
  unfold CustomerRepository.orEmpty
  split
  · rename_i h
    exact h.symm
  · rfl

/-- The auto-increment invariant `SQLite` maintains for `customers`: every
stored id is below the next id to be handed out. -/
def WF (db : DB) : Prop :=
  ∀ r ∈ db.customers, ∀ j, r.id = some j → j < db.nextCustomerId

/-- C8: creating a customer and immediately fetching by the assigned id
returns a customer with identical name, phone, address and `created_at`. -/
theorem C8_create_then_get_round_trip (db : DB) (c : Customer) (hwf : WF db)
    (_hname : c.name ≠ "") :
    ∃ c' db', CustomerRepository.create db c = (c', db')
      ∧ c'.id = some db.nextCustomerId
      ∧ c'.name = c.name ∧ c'.phone = c.phone ∧ c'.address = c.address
      ∧ c'.created_at = c.created_at
      ∧ CustomerRepository.get_by_id db' db.nextCustomerId = some c' := by
  refine ⟨_, _, rfl, rfl, rfl, rfl, rfl, rfl, ?_⟩
  have hnotold : List.find? (fun r => decide (r.id = some db.nextCustomerId))
      db.customers = none := by
    refine List.find?_eq_none.mpr fun r hr => ?_
    simp only [decide_eq_true_eq]
    intro hid
    exact absurd (hwf r hr _ hid) (lt_irrefl _)
  simp only [CustomerRepository.create, CustomerRepository.get_by_id,
    List.find?_append, hnotold, Option.none_or]
  simp [orEmpty_eq]

/-- Witness for C8: creating `"An"` in the empty store and fetching id 1
round-trips all fields. -/
theorem C8_create_then_get_round_trip_witness :
    ∃ c' db', CustomerRepository.create DB.empty
        { name := "An", phone := "09", address := "HN", id := none,
          created_at := 5 } = (c', db')
      ∧ c'.name = "An" ∧ c'.phone = "09" ∧ c'.address = "HN"
      ∧ c'.created_at = 5
      ∧ CustomerRepository.get_by_id db' DB.empty.nextCustomerId = some c' := by
  obtain ⟨c', db', h1, _, h3, h4, h5, h6, h7⟩ :=
    C8_create_then_get_round_trip DB.empty
      { name := "An", phone := "09", address := "HN", id := none, created_at := 5 }
      (fun r hr => absurd hr (List.not_mem_nil r)) (by decide)
  exact ⟨c', db', h1, h3, h4, h5, h6, h7⟩

/-- C9: `update` with an existing id overwrites exactly name, phone and
address of the rows carrying that id, keeps every id and `created_at`,
leaves all other rows and the transaction log untouched, and reports whether
a row with that id existed. -/
theorem C9_update_overwrites_only_profile_fields (db : DB) (c : Customer)
    (i : Nat) (hid : c.id = some i) :
    ((CustomerRepository.update db c).1 = true ↔ ∃ r ∈ db.customers, r.id = some i)
  ∧ ((CustomerRepository.update db c).2).customers.length = db.customers.length
  ∧ ((CustomerRepository.update db c).2).transactions = db.transactions
  ∧ (∀ (k : Nat) (r r' : Customer), db.customers[k]? = some r →
        ((CustomerRepository.update db c).2).customers[k]? = some r' →
        r'.id = r.id ∧ r'.created_at = r.created_at
      ∧ (r.id = some i →
          r'.name = c.name ∧ r'.phone = c.phone ∧ r'.address = c.address)
      ∧ (r.id ≠ some i → r' = r)) := by
  have hu : CustomerRepository.update db c =
      (db.customers.any (fun r => decide (r.id = some i)),
       { db with customers := db.customers.map (fun r =>
           if r.id = some i then
             { r with name := c.name, phone := c.phone, address := c.address }
           else r) }) := by
    simp [CustomerRepository.update, hid]
  refine ⟨?_, ?_, ?_, ?_⟩
  · rw [hu]
    simp [List.any_eq_true]
  · rw [hu]
    simp
  · rw [hu]
  · intro k r r' hr hr'
    rw [hu] at hr'
    simp only [List.getElem?_map, hr, Option.map_some'] at hr'
    have hr'' : r' = if r.id = some i then
        { r with name := c.name, phone := c.phone, address := c.address }
      else r := (Option.some.inj hr').symm
    by_cases hcase : r.id = some i
    · subst hr''
      simp [hcase]
    · subst hr''
      simp [hcase]

/-- Witness for C9: updating customer 1's profile in the store holding
`"An"` reports success and leaves the transaction log unchanged. -/
theorem C9_update_overwrites_only_profile_fields_witness :
    (CustomerRepository.update dbAn
      { name := "Bình", phone := "0909", address := "HN", id := some 1,
        created_at := 99 }).1 = true
  ∧ ((CustomerRepository.update dbAn
      { name := "Bình", phone := "0909", address := "HN", id := some 1,
        created_at := 99 }).2).transactions = dbAn.transactions := by
  have h := C9_update_overwrites_only_profile_fields dbAn
    { name := "Bình", phone := "0909", address := "HN", id := some 1,
      created_at := 99 } 1 rfl
  have hmem :
      ({ name := "An", id := some 1, created_at := 0 } : Customer) ∈
        dbAn.customers := by decide
  exact ⟨h.1.mpr ⟨_, hmem, rfl⟩, h.2.2.1⟩

/-- Counterexample to C7 as stated: the empty-name validation error is not
raised by the service layer — `CustomerController.create_customer` applies
the rule itself.  On the blank name it fails with the validation message and
leaves the store untouched, while `CustomerRepository.create` (which the
controller would have called, and which performs no validation) happily
inserts the very same empty-named row. -/
theorem C7_counterexample_empty_name_rule_lives_in_controller :
    CustomerController.create_customer DB.empty "" "0901" "HN"
      = ((false, "Tên khách hàng không được để trống", none), DB.empty)
  ∧ (CustomerRepository.create DB.empty
      { name := "", phone := "0901", address := "HN", id := none,
        created_at := 0 }).2 ≠ DB.empty := by
  constructor
  · rfl
  · decide

/-- C7 as amended: the non-positive-amount and unknown-customer-id errors
are raised by the service layer and merely adapted by the controller into
`(success, message)` results; the empty-name rule, however, is applied by
the controller itself before it calls the repository; repositories never
validate business rules (`create` inserts any row, the empty name
included). -/
theorem C7_amended_service_validates_except_empty_name (db : DB)
    (name phone address : String) (customer_id : Nat) (amount : Int)
    (note : String) :
    (strip name = "" →
       CustomerController.create_customer db name phone address
         = ((false, "Tên khách hàng không được để trống", none), db))
  ∧ (∀ c : Customer, ((CustomerRepository.create db c).2).customers
        = db.customers ++ [{ c with id := some db.nextCustomerId }])
  ∧ (CustomerRepository.get_by_id db customer_id = none →
        (DebtService.add_loan db customer_id amount note).1
          = .error (.customerNotFound customer_id)
      ∧ (DebtService.add_payment db customer_id amount note).1
          = .error (.customerNotFound customer_id))
  ∧ (∀ c, CustomerRepository.get_by_id db customer_id = some c → amount ≤ 0 →
        (DebtService.add_loan db customer_id amount note).1
          = .error .invalidLoanAmount
      ∧ (DebtService.add_payment db customer_id amount note).1
          = .error .invalidPaymentAmount)
  ∧ (∀ e db₂, DebtService.add_loan db customer_id amount note = (.error e, db₂) →
        CustomerController.add_loan db customer_id amount note
          = ((false, e.message), db₂))
  ∧ (∀ t db₂, DebtService.add_loan db customer_id amount note = (.ok t, db₂) →
        CustomerController.add_loan db customer_id amount note
          = ((true, "Đã thêm khoản cho vay thành công"), db₂)) := by
  refine ⟨?_, ?_, ?_, ?_, ?_, ?_⟩
  · intro hname
    simp [CustomerController.create_customer, hname]
  · intro c
    simp [CustomerRepository.create]
  · intro hg
    exact ⟨by rw [add_loan_eq_of_no_customer db customer_id amount note hg],
           by rw [add_payment_eq_of_no_customer db customer_id amount note hg]⟩
  · intro c hg hle
    exact ⟨by rw [add_loan_eq_of_nonpos db customer_id amount note c hg hle],
           by rw [add_payment_eq_of_nonpos db customer_id amount note c hg hle]⟩
  · intro e db₂ hcall
    simp [CustomerController.add_loan, hcall]
  · intro t db₂ hcall
    simp [CustomerController.add_loan, hcall]

/-- Witness for the amended C7: the blank name is rejected by the controller
on the untouched empty store; `add_loan(999, 100)` on the empty store errors
in the service and the controller adapts the message verbatim. -/
theorem C7_amended_service_validates_except_empty_name_witness :
    CustomerController.create_customer DB.empty " " "p" "a"
      = ((false, "Tên khách hàng không được để trống", none), DB.empty)
  ∧ (DebtService.add_loan dbAn 1 (-50) "").1 = .error .invalidLoanAmount
  ∧ CustomerController.add_loan DB.empty 999 100 ""
      = ((false, DebtError.message (.customerNotFound 999)), DB.empty) := by
  have h1 := (C7_amended_service_validates_except_empty_name DB.empty
    " " "p" "a" 999 100 "").1 (by decide)
  have h2 := ((C7_amended_service_validates_except_empty_name dbAn
    "x" "" "" 1 (-50) "").2.2.2.1
    { name := "An", phone := "", address := "", id := some 1, created_at := 0 }
    (by decide) (by decide)).1
  have h3 := ((C7_amended_service_validates_except_empty_name DB.empty
    "x" "" "" 999 100 "").2.2.2.2.1 (.customerNotFound 999) DB.empty rfl)
  exact ⟨h1, h2, h3⟩

end Socongno
